import Mathlib

/-!
Shallow embedding of `src/rust-lib/flowy-sys/src/stream.rs` (the command
dispatch subsystem of flowy-sys): the `StreamData` dispatch request, the
`CommandStream` dispatcher, the `CommandStreamFuture` background dispatch
loop, and the `CommandStreamService` routing service.

Asynchronous code is resolved: a future of `Result<A, E>` becomes
`Except E A`, and the effects of `call` (callback invocations, handler
factory invocations, handler invocations) are recorded in an explicit
effect log so that "invoked exactly once" properties are statable.
A Rust `unwrap` panic is modelled by an `Option` result being `none`.
-/

namespace FlowySys

/-- Modelled from the spec: the Event Request shape `{ event_key, identifier,
payload }` (defined in `request.rs`, outside `src/`). `get_event` is the
`event` field and `get_id` is the `id` field. -/
structure EventRequest where
  event : String
  id : String
  payload : Option String
deriving DecidableEq, Repr

/-- Modelled from the spec: the derived Debug rendering of an Event Request,
used by the routing-miss message; it names the event key, identifier and
payload of the unresolved request. -/
def EventRequest.debugFmt (r : EventRequest) : String :=
  "EventRequest(event: " ++ r.event ++ ", id: " ++ r.id ++ ", payload: " ++
    (match r.payload with
     | some p => p
     | none => "None") ++ ")"

/-- Modelled from the spec: the Event Response shape, a success/error tagged
union, cheaply copyable (defined in `response.rs`, outside `src/`). -/
inductive EventResponse where
  | success (payload : Option String)
  | error (msg : String)
deriving DecidableEq, Repr

/-- Modelled from the spec: `SystemError` (defined in `error.rs`, outside
`src/`); `InternalError::new(msg).into()` produces one carrying `msg`. -/
structure SystemError where
  msg : String
deriving DecidableEq, Repr

/-- Modelled from the spec: `InternalError::new(msg).into() : SystemError`,
collapsed into one step since `InternalError` lives outside `src/`. -/
def InternalError.new (msg : String) : SystemError :=
  { msg := msg }

/-- Modelled from the spec: the universal Error to Response conversion
(`e.into()` at line 161), a total function turning any error into an error
Response; a fixed external contract, not reimplemented in `stream.rs`. -/
def SystemError.intoResponse (e : SystemError) : EventResponse :=
  EventResponse.error e.msg

/-- Modelled from the spec: the handler obtained from a module's factory;
`call(request) -> (async) Result<Response, Error>`, resolved. -/
structure Handler where
  call : EventRequest → Except SystemError EventResponse

/-- Modelled from the spec: a handler factory from the Module Registry;
`new_service(identifier) -> (async) Result<Handler, Error>`, resolved. -/
structure Module where
  new_service : String → Except SystemError Handler

/-- Modelled from the spec: the Module Registry, a lookup table from event
key to handler factory (`ModuleMap` in `system.rs`, outside `src/`). -/
abbrev ModuleMap := List (String × Module)

/-- Modelled from the spec: `ModuleMap::get(event_key) -> optional factory`. -/
def ModuleMap.get (m : ModuleMap) (event : String) : Option Module :=
  match m with
  | [] => none
  | (k, v) :: rest => if k = event then some v else ModuleMap.get rest event

/-- Lines 38 to 45: `StreamData<T>`, the dispatch request: an opaque config,
an optional request payload, and an optional one-shot boxed callback. -/
structure StreamData (T : Type) where
  config : T
  request : Option EventRequest
  callback : Option (T → EventResponse → Unit)

/-- Lines 48 to 54: `StreamData::new(config, request)`. -/
def StreamData.new {T : Type} (config : T) (request : Option EventRequest) :
    StreamData T :=
  { config := config, request := request, callback := none }

/-- Lines 56 to 59: `StreamData::with_callback`. -/
def StreamData.with_callback {T : Type} (s : StreamData T)
    (cb : T → EventResponse → Unit) : StreamData T :=
  { s with callback := some cb }

/-- Lines 133 to 135: the routing service `CommandStreamService`. -/
structure CommandStreamService where
  module_map : ModuleMap

/-- The value and effect log of one `CommandStreamService::call`:
the `Result` the returned future resolves to, the `(config, response)`
argument pairs the item's callback was invoked with, the identifiers passed
to `module.new_service`, and the requests passed to `handler.call`. -/
structure CallResult (T : Type) where
  result : Except SystemError EventResponse
  invocations : List (T × EventResponse)
  factoryCalls : List String
  handlerCalls : List EventRequest

/-- Line 161: `result.unwrap_or_else(|e| e.into())`. -/
def resolveResponse (x : Except SystemError EventResponse) : EventResponse :=
  match x with
  | Except.ok r => r
  | Except.error e => e.intoResponse

/-- The two-phase factory protocol of lines 150 to 152:
`module.new_service(config)` awaited with `?`, then `handler.call(request)`. -/
def handlerResult (m : Module) (req : EventRequest) :
    Except SystemError EventResponse :=
  (m.new_service req.id).bind (fun h => h.call req)

/-- Lines 146 to 159: the `result = { match module_map.get(...) ... }` block
of `call`: route one request, returning the `Result` together with the
identifiers passed to `module.new_service` and the requests passed to
`handler.call`. -/
def routeRequest (mm : ModuleMap) (request : EventRequest) :
    Except SystemError EventResponse × List String × List EventRequest :=
  match mm.get request.event with
  | some module =>
    let config := request.id
    match module.new_service config with
    | Except.ok handler => (handler.call request, [config], [request])
    | Except.error e => (Except.error e, [config], [])
  | none =>
    let msg := "Can not find the module to handle the request:" ++ request.debugFmt
    (Except.error (InternalError.new msg), [], [])

/-- Lines 142 to 169: `CommandStreamService::call`. `data.request.take().unwrap()`
panics when the payload is absent, modelled as `none`; otherwise the returned
future resolves to `Ok(response)` with the effect log. -/
def CommandStreamService.call {T : Type} (s : CommandStreamService)
    (data : StreamData T) : Option (CallResult T) :=
  match data.request with
  | none => none
  | some request =>
    let routed := routeRequest s.module_map request
    let response := resolveResponse routed.1
    let invocations :=
      match data.callback with
      | some cb =>
        let _ := cb data.config response
        [(data.config, response)]
      | none => []
    some { result := Except.ok response, invocations := invocations,
           factoryCalls := routed.2.1, handlerCalls := routed.2.2 }

/-- State of a tokio unbounded mpsc channel: the FIFO buffer of sent items
and whether the consuming half is still alive. -/
structure Channel (α : Type) where
  queue : List α
  rxAlive : Bool

/-- `UnboundedSender::send`: appends to the FIFO buffer, or returns the item
back as an error when the consuming half has been dropped. -/
def Channel.send {α : Type} (c : Channel α) (a : α) : Except α (Channel α) :=
  if c.rxAlive then Except.ok { c with queue := c.queue ++ [a] }
  else Except.error a

/-- Lines 62 to 69: `CommandStream<T>`: the module map, the channel reachable
through `data_tx`, and the `Option`-held consuming half `data_rx`. -/
structure CommandStream (T : Type) where
  module_map : ModuleMap
  channel : Channel (StreamData T)
  data_rx : Option Unit

/-- Lines 74 to 81: `CommandStream::new`: a fresh unbounded channel, with the
receiver held in `data_rx`. -/
def CommandStream.new {T : Type} (module_map : ModuleMap) : CommandStream T :=
  { module_map := module_map,
    channel := { queue := [], rxAlive := true },
    data_rx := some () }

/-- Line 83: `async_send`: `let _ = self.data_tx.send(data);` — the send
result is discarded, so a send onto a shut-down channel drops the item. -/
def CommandStream.async_send {T : Type} (s : CommandStream T)
    (data : StreamData T) : CommandStream T :=
  match s.channel.send data with
  | Except.ok c => { s with channel := c }
  | Except.error _ => s

/-- Lines 28 to 32, `service_factor_impl!` expanded for `CommandStream`:
`new_service` always resolves to `Ok` of a fresh routing service sharing the
module map. -/
def CommandStream.new_service {T : Type} (s : CommandStream T) :
    Except SystemError CommandStreamService :=
  Except.ok { module_map := s.module_map }

/-- Lines 85 to 92: `sync_send`: block on the factory, `unwrap`, `call`,
`unwrap`. A panic on either `unwrap` (or inside `call`) is `none`.
The stream itself is untouched; the post state is returned explicitly. -/
def CommandStream.sync_send {T : Type} (s : CommandStream T)
    (data : StreamData T) : Option EventResponse × CommandStream T :=
  match s.new_service with
  | Except.error _ => (none, s)
  | Except.ok service =>
    match service.call data with
    | none => (none, s)
    | some r =>
      match r.result with
      | Except.error _ => (none, s)
      | Except.ok resp => (some resp, s)

/-- Line 96: `take_data_rx`: `self.data_rx.take().unwrap()` — yields the
receiver and leaves `none` behind; panics (`none`) when already taken. -/
def CommandStream.take_data_rx {T : Type} (s : CommandStream T) :
    Option (Unit × CommandStream T) :=
  match s.data_rx with
  | some rx => some (rx, { s with data_rx := none })
  | none => none

/-- Lines 99 to 102: `CommandStreamFuture<T>`: the module map and the owned
consuming half, modelled as its buffered items plus whether every sender has
been dropped. -/
structure CommandStreamFuture (T : Type) where
  module_map : ModuleMap
  rx_queue : List (StreamData T)
  rx_closed : Bool

/-- Lines 104 and 28 to 32, `service_factor_impl!` expanded for
`CommandStreamFuture`. -/
def CommandStreamFuture.new_service {T : Type} (f : CommandStreamFuture T) :
    Except SystemError CommandStreamService :=
  Except.ok { module_map := f.module_map }

/-- Outcome of one `poll` of the background dispatch loop. -/
inductive PollOutcome where
  | ready
  | pending
deriving DecidableEq, Repr

/-- The loop body of lines 118 to 129, one iteration per buffered item:
each `Some(ctx)` produces one spawned task recorded as the factory future's
resolved value paired with the item it is bound to; an empty buffer yields
`Ready` when the channel is closed (`poll_recv` gave `None`) and `Pending`
otherwise (via `ready!`). -/
def pollDrain {T : Type} (mm : ModuleMap) (closed : Bool) :
    List (StreamData T) →
      PollOutcome × List (Except SystemError CommandStreamService × StreamData T)
  | [] => (if closed then PollOutcome.ready else PollOutcome.pending, [])
  | item :: rest =>
    let factory := Except.ok { module_map := mm }
    let next := pollDrain mm closed rest
    (next.1, (factory, item) :: next.2)

/-- Lines 117 to 130: `CommandStreamFuture::poll`: drains the receiver,
spawning one task per dequeued item in FIFO order without waiting on any of
them, and returns the poll outcome, the post state, and the spawn log. -/
def CommandStreamFuture.poll {T : Type} (f : CommandStreamFuture T) :
    PollOutcome × CommandStreamFuture T ×
      List (Except SystemError CommandStreamService × StreamData T) :=
  let r := pollDrain f.module_map f.rx_closed f.rx_queue
  (r.1, { f with rx_queue := [] }, r.2)

/-- Sample registry from the spec scenario: `"ping" -> EchoHandler`. -/
def echoHandler : Handler :=
  { call := fun r => Except.ok (EventResponse.success r.payload) }

/-- Sample handler factory that always constructs `echoHandler`. -/
def echoModule : Module :=
  { new_service := fun _ => Except.ok echoHandler }

/-- Sample module registry with the single key `"ping"`. -/
def sampleMap : ModuleMap := [("ping", echoModule)]

/-- Sample routing service over `sampleMap`. -/
def sampleService : CommandStreamService := { module_map := sampleMap }

/-- Sample registered request from the spec scenario. -/
def pingReq : EventRequest := { event := "ping", id := "1", payload := some "P" }

/-- Sample unregistered request from the spec scenario. -/
def missReq : EventRequest := { event := "missing", id := "2", payload := none }

/-- Sample dispatch item with a registered key and no callback. -/
def pingData : StreamData Nat := { config := 0, request := some pingReq, callback := none }

/-- Sample dispatch item with a registered key and a callback. -/
def pingDataCb : StreamData Nat :=
  { config := 7, request := some pingReq, callback := some (fun _ _ => ()) }

/-- Sample dispatch item with an unregistered key. -/
def missData : StreamData Nat := { config := 1, request := some missReq, callback := none }

/-- Sample dispatch item whose payload was already consumed. -/
def takenData : StreamData Nat := { config := 2, request := none, callback := none }

/-- Sample freshly constructed dispatcher. -/
def sampleStream : CommandStream Nat := CommandStream.new sampleMap

/-- Sample dispatcher whose consuming half has been shut down. -/
def deadStream : CommandStream Nat :=
  { module_map := sampleMap,
    channel := { queue := [], rxAlive := false },
    data_rx := none }

/-- Helper: `call` on an item with a present payload, fully characterized. -/
theorem call_some_eq {T : Type} (s : CommandStreamService) (c : T)
    (req : EventRequest) (cb : Option (T → EventResponse → Unit)) :
    s.call { config := c, request := some req, callback := cb } =
      some { result := Except.ok (resolveResponse (routeRequest s.module_map req).1),
             invocations :=
               if cb.isSome
               then [(c, resolveResponse (routeRequest s.module_map req).1)]
               else [],
             factoryCalls := (routeRequest s.module_map req).2.1,
             handlerCalls := (routeRequest s.module_map req).2.2 } := by
  cases cb <;> rfl

/-- C1: for every item whose payload is present, `call` invokes the callback
exactly once with `(config, response)` when the callback is present, and
invokes no callback when absent; either way the same response is the one the
returned future resolves to, for routing hits and misses alike. -/
theorem call_callback_exactly_once {T : Type} (s : CommandStreamService)
    (d : StreamData T) (req : EventRequest) (h : d.request = some req) :
    ∃ r, s.call d = some r ∧ ∃ resp, r.result = Except.ok resp ∧
      r.invocations = (if d.callback.isSome then [(d.config, resp)] else []) := by
  obtain ⟨c, request, cb⟩ := d
  cases h
  exact ⟨_, call_some_eq s c req cb, _, rfl, rfl⟩

/-- Witness for C1 at the sample registered item carrying a callback. -/
theorem call_callback_exactly_once_witness :
    ∃ r, sampleService.call pingDataCb = some r ∧ ∃ resp,
      r.result = Except.ok resp ∧
      r.invocations =
        (if pingDataCb.callback.isSome then [(pingDataCb.config, resp)] else []) :=
  call_callback_exactly_once sampleService pingDataCb pingReq rfl

/-- C2: for every item whose payload is present, the future returned by
`call` resolves to `Ok(response)`; the `Err` branch is never produced. -/
theorem call_never_errs {T : Type} (s : CommandStreamService)
    (d : StreamData T) (req : EventRequest) (h : d.request = some req) :
    ∃ r, s.call d = some r ∧ ∃ resp, r.result = Except.ok resp := by
  obtain ⟨c, request, cb⟩ := d
  cases h
  exact ⟨_, call_some_eq s c req cb, _, rfl⟩

/-- Witness for C2 at the sample unregistered item (a routing miss still
resolves to `Ok` of an error response). -/
theorem call_never_errs_witness :
    ∃ r, sampleService.call missData = some r ∧ ∃ resp,
      r.result = Except.ok resp :=
  call_never_errs sampleService missData missReq rfl

/-- C3: for every item whose event key is registered, `call` returns the
handler's own result — the handler's success response when both factory
phases succeed, and the error to response coercion of the failure
otherwise. -/
theorem call_registered_matches_handler {T : Type} (s : CommandStreamService)
    (d : StreamData T) (req : EventRequest) (m : Module)
    (h : d.request = some req) (hm : s.module_map.get req.event = some m) :
    ∃ r, s.call d = some r ∧
      r.result = Except.ok (resolveResponse (handlerResult m req)) ∧
      r.factoryCalls = [req.id] := by
  obtain ⟨c, request, cb⟩ := d
  cases h
  refine ⟨_, call_some_eq s c req cb, ?_, ?_⟩ <;>
    cases hn : m.new_service req.id <;>
      simp [routeRequest, handlerResult, hm, hn, Except.bind]

/-- Witness for C3 at the sample registered item. -/
theorem call_registered_matches_handler_witness :
    ∃ r, sampleService.call pingData = some r ∧
      r.result = Except.ok (resolveResponse (handlerResult echoModule pingReq)) ∧
      r.factoryCalls = [pingReq.id] :=
  call_registered_matches_handler sampleService pingData pingReq echoModule rfl rfl

/-- C4: for every item whose event key is unregistered, `call` returns an
error response whose message names the unresolved request, and no handler
factory and no handler is ever invoked for that item. -/
theorem call_unregistered_miss {T : Type} (s : CommandStreamService)
    (d : StreamData T) (req : EventRequest) (h : d.request = some req)
    (hm : s.module_map.get req.event = none) :
    ∃ r, s.call d = some r ∧
      r.result = Except.ok (EventResponse.error
        ("Can not find the module to handle the request:" ++ req.debugFmt)) ∧
      r.factoryCalls = [] ∧ r.handlerCalls = [] := by
  obtain ⟨c, request, cb⟩ := d
  cases h
  refine ⟨_, call_some_eq s c req cb, ?_, ?_, ?_⟩ <;>
    simp [routeRequest, hm, resolveResponse, InternalError.new, SystemError.intoResponse]

/-- Witness for C4 at the sample unregistered item. -/
theorem call_unregistered_miss_witness :
    ∃ r, sampleService.call missData = some r ∧
      r.result = Except.ok (EventResponse.error
        ("Can not find the module to handle the request:" ++ missReq.debugFmt)) ∧
      r.factoryCalls = [] ∧ r.handlerCalls = [] :=
  call_unregistered_miss sampleService missData missReq rfl rfl

/-- C5: for every item with a present payload, `sync_send` returns exactly
the response a freshly constructed routing service computes via `call`, and
leaves the stream (its channel state included) unchanged. -/
theorem sync_send_refines_call {T : Type} (s : CommandStream T)
    (d : StreamData T) (req : EventRequest) (h : d.request = some req) :
    ∃ r, CommandStreamService.call { module_map := s.module_map } d = some r ∧
      ∃ resp, r.result = Except.ok resp ∧ s.sync_send d = (some resp, s) := by
  obtain ⟨c, request, cb⟩ := d
  cases h
  refine ⟨_, call_some_eq _ c req cb, _, rfl, ?_⟩
  simp [CommandStream.sync_send, CommandStream.new_service, call_some_eq]

/-- Witness for C5 at the fresh sample stream and the registered item. -/
theorem sync_send_refines_call_witness :
    ∃ r, CommandStreamService.call { module_map := sampleStream.module_map } pingData = some r ∧
      ∃ resp, r.result = Except.ok resp ∧
        sampleStream.sync_send pingData = (some resp, sampleStream) :=
  sync_send_refines_call sampleStream pingData pingReq rfl

/-- C6: one `poll` of the background dispatch loop drains the receiver,
spawning exactly one task per dequeued item in FIFO arrival order (each
bound to its item with a fresh factory, none awaited), and resolves `Ready`
exactly when the channel is closed, in which case the drained state produces
no further effects. -/
theorem poll_drains_fifo {T : Type} (f : CommandStreamFuture T) :
    f.poll = (if f.rx_closed then PollOutcome.ready else PollOutcome.pending,
      { f with rx_queue := [] },
      f.rx_queue.map
        (fun item => (Except.ok { module_map := f.module_map }, item))) := by
  have aux : ∀ q : List (StreamData T),
      pollDrain f.module_map f.rx_closed q =
        (if f.rx_closed then PollOutcome.ready else PollOutcome.pending,
          q.map (fun item => (Except.ok { module_map := f.module_map }, item))) := by
    intro q
    induction q with
    | nil => rfl
    | cons item rest ih => simp [pollDrain, ih]
  simp [CommandStreamFuture.poll, aux]

/-- C7: `async_send` never blocks and surfaces no error: with the consuming
half alive the item is appended to the FIFO queue; with it shut down the
item is silently dropped and the stream is unchanged. -/
theorem async_send_fire_and_forget {T : Type} (s : CommandStream T)
    (d : StreamData T) :
    (s.channel.rxAlive = true →
      s.async_send d =
        { s with channel := { queue := s.channel.queue ++ [d], rxAlive := true } }) ∧
    (s.channel.rxAlive = false → s.async_send d = s) := by
  obtain ⟨mm, ⟨q, alive⟩, rx⟩ := s
  constructor <;> intro h <;> cases h <;>
    simp [CommandStream.async_send, Channel.send]

/-- Witness for C7: an alive stream enqueues; a shut-down stream drops. -/
theorem async_send_fire_and_forget_witness :
    sampleStream.async_send pingData =
      { sampleStream with
        channel := { queue := sampleStream.channel.queue ++ [pingData], rxAlive := true } } ∧
    deadStream.async_send pingData = deadStream :=
  ⟨(async_send_fire_and_forget sampleStream pingData).1 rfl,
   (async_send_fire_and_forget deadStream pingData).2 rfl⟩

/-- C8: `call` on an item whose payload was already consumed panics (no
response is produced); with the payload present the take never aborts and
a result is always produced. -/
theorem call_absent_payload_panics {T : Type} (s : CommandStreamService)
    (d : StreamData T) :
    (d.request = none → s.call d = none) ∧
    (∀ req, d.request = some req → (s.call d).isSome = true) := by
  obtain ⟨c, request, cb⟩ := d
  constructor
  · intro h; cases h; rfl
  · intro req h; cases h; rw [call_some_eq]; rfl

/-- Witness for C8: the consumed sample item panics; the intact one does not. -/
theorem call_absent_payload_panics_witness :
    sampleService.call takenData = none ∧
      (sampleService.call pingData).isSome = true :=
  ⟨(call_absent_payload_panics sampleService takenData).1 rfl,
   (call_absent_payload_panics sampleService pingData).2 pingReq rfl⟩

/-- C9: on a freshly constructed stream the first `take_data_rx` succeeds,
hands over the consuming half and leaves no receiver behind; a second call
on the resulting stream panics. -/
theorem take_data_rx_once (mm : ModuleMap) :
    ∃ s2 : CommandStream Nat,
      (CommandStream.new mm : CommandStream Nat).take_data_rx = some ((), s2) ∧
      s2.data_rx = none ∧ s2.take_data_rx = none := by
  exact ⟨_, rfl, rfl, rfl⟩

/-- C10: for both the dispatcher and the background loop, the
`service_factor_impl!` factory always resolves to `Ok` of a fresh routing
service sharing the module map — never `Err` — so every spawned task's
factory in the spawn log is `Ok` and the `unwrap`s on the factory result
are unreachable error branches. -/
theorem new_service_never_fails {T : Type} (s : CommandStream T)
    (f : CommandStreamFuture T) :
    s.new_service = Except.ok { module_map := s.module_map } ∧
    f.new_service = Except.ok { module_map := f.module_map } ∧
    (f.poll).2.2 = f.rx_queue.map
      (fun item => (Except.ok { module_map := f.module_map }, item)) := by
  refine ⟨rfl, rfl, ?_⟩
  have aux : ∀ q : List (StreamData T),
      (pollDrain f.module_map f.rx_closed q).2 =
        q.map (fun item => (Except.ok { module_map := f.module_map }, item)) := by
    intro q
    induction q with
    | nil => rfl
    | cons item rest ih => simp [pollDrain, ih]
  simp [CommandStreamFuture.poll, aux]

end FlowySys
